import Mathlib

/-!
Verification development for the arrakis CDP proxy server (cmd/cdpserver).

The definitions below are a shallow embedding of the Go source:
  * the VM / PortForward data model and the JSON listing decoded by
    `discoverCDPPort`,
  * the pure selection loop of `discoverCDPPort`,
  * the discovery-failure branch of `proxyHandler`,
  * the response-body URL rewrite performed by `proxyHandler`,
  * the outbound-request construction of both the HTTP forward and the
    websocket relay,
  * the teardown protocol of the websocket relay (shared `done` channel
    guarded by a `sync.Once`),
  * the error/timeout branches of the HTTP forward.
-/

/-- One port-forward entry of a VM, as decoded from the REST listing:
`Description`, `GuestPort`, `HostPort` (all strings in the source). -/
structure PortForward where
  description : String
  guestPort : String
  hostPort : String
deriving DecidableEq, Repr

/-- One VM entry of the REST listing: `VMName`, `Status`, `IP`,
`PortForwards`. -/
structure VM where
  vmName : String
  status : String
  ip : String
  portForwards : List PortForward
deriving DecidableEq, Repr

/-- The match condition of the inner loop of `discoverCDPPort`:
`pf.GuestPort == "9223" && pf.Description == "cdp"`. -/
def cdpForwardMatch (pf : PortForward) : Bool :=
  pf.guestPort == "9223" && pf.description == "cdp"

/-- The inner loop of `discoverCDPPort`: scan the port forwards in order and
return the first entry satisfying `cdpForwardMatch`. -/
def findCDPForward : List PortForward → Option PortForward
  | [] => none
  | pf :: rest => if cdpForwardMatch pf then some pf else findCDPForward rest

/-- Discovery failure kinds, one per error message of `discoverCDPPort`:
`namedNotFound` for "VM not found or not running with CDP" (returned when a
name was requested), `noneAvailable` for "no running VM found with CDP port
forwarding" (returned when no name was requested). -/
inductive DiscoveryError where
  | namedNotFound
  | noneAvailable
deriving DecidableEq, Repr

/-- The outer loop of `discoverCDPPort`: iterate the listed VMs in order;
skip VMs whose status is not "RUNNING"; when a name was requested
(`vmName != ""`), skip VMs with a different name; otherwise scan the VM's
port forwards and return the first CDP match together with the VM. -/
def discoverLoop (vmName : String) : List VM → Option (String × VM)
  | [] => none
  | vm :: rest =>
    if vm.status == "RUNNING" then
      if vmName != "" && vm.vmName != vmName then discoverLoop vmName rest
      else
        match findCDPForward vm.portForwards with
        | some pf => some (pf.hostPort, vm)
        | none => discoverLoop vmName rest
    else discoverLoop vmName rest

/-- The pure selection part of `discoverCDPPort` (the HTTP fetch and JSON
decoding are abstracted into the `vms` argument): on no match, the error kind
depends on whether a name was requested. -/
def discoverCDPPort (vmName : String) (vms : List VM) :
    Except DiscoveryError (String × VM) :=
  match discoverLoop vmName vms with
  | some r => Except.ok r
  | none =>
    if vmName != "" then Except.error DiscoveryError.namedNotFound
    else Except.error DiscoveryError.noneAvailable

/-- Outcome of the discovery phase of `proxyHandler`: either the 503
error response written by `http.Error(w, ..., http.StatusServiceUnavailable)`
(after which the handler returns — no retry), or the host port and VM used
for forwarding. -/
inductive HandlerStep where
  | errorResponse (status : Nat)
  | forwardTo (hostPort : String) (vm : VM)
deriving DecidableEq, Repr

/-- The discovery branch of `proxyHandler`: a single call to
`discoverCDPPort`; any discovery error is surfaced as a 503
service-unavailable response. -/
def proxyHandlerResolve (vmName : String) (vms : List VM) : HandlerStep :=
  match discoverCDPPort vmName vms with
  | Except.error _ => HandlerStep.errorResponse 503
  | Except.ok (hp, vm) => HandlerStep.forwardTo hp vm

example :
    discoverCDPPort "b"
      [⟨"a", "RUNNING", "10.0.0.4", [⟨"cdp", "9223", "4400"⟩]⟩,
       ⟨"b", "RUNNING", "10.0.0.5", [⟨"cdp", "9223", "4500"⟩]⟩] =
    Except.ok ("4500", ⟨"b", "RUNNING", "10.0.0.5", [⟨"cdp", "9223", "4500"⟩]⟩) := rfl

example :
    discoverCDPPort "" [⟨"a", "STOPPED", "10.0.0.4", [⟨"cdp", "9223", "4400"⟩]⟩] =
    Except.error DiscoveryError.noneAvailable := rfl

theorem cdpForwardMatch_iff (pf : PortForward) :
    cdpForwardMatch pf = true ↔ pf.guestPort = "9223" ∧ pf.description = "cdp" := by
  simp [cdpForwardMatch]

theorem findCDPForward_some {pfs : List PortForward} {pf : PortForward}
    (h : findCDPForward pfs = some pf) :
    pf ∈ pfs ∧ pf.guestPort = "9223" ∧ pf.description = "cdp" := by
  induction pfs with
  | nil => simp [findCDPForward] at h
  | cons q rest ih =>
    rw [findCDPForward] at h
    split at h
    case isTrue hq =>
      have heq : q = pf := by simpa using h
      subst heq
      exact ⟨List.mem_cons_self _ _, (cdpForwardMatch_iff _).mp hq⟩
    case isFalse hq =>
      obtain ⟨hmem, hrest⟩ := ih h
      exact ⟨List.mem_cons_of_mem q hmem, hrest⟩

theorem findCDPForward_first (pfs1 : List PortForward) (pf : PortForward)
    (pfs2 : List PortForward) (h1 : ∀ q ∈ pfs1, cdpForwardMatch q = false)
    (h2 : cdpForwardMatch pf = true) :
    findCDPForward (pfs1 ++ pf :: pfs2) = some pf := by
  induction pfs1 with
  | nil => simp [findCDPForward, h2]
  | cons q rest ih =>
    have hq : cdpForwardMatch q = false := h1 q (List.mem_cons_self q rest)
    simp only [List.cons_append, findCDPForward, hq]
    simp only [Bool.false_eq_true, if_false]
    exact ih fun r hr => h1 r (List.mem_cons_of_mem q hr)

theorem discoverLoop_ok {name : String} {vms : List VM} {hp : String} {vm : VM}
    (h : discoverLoop name vms = some (hp, vm)) :
    vm ∈ vms ∧ vm.status = "RUNNING" ∧ (name ≠ "" → vm.vmName = name) ∧
    ∃ pf, findCDPForward vm.portForwards = some pf ∧ pf.hostPort = hp := by
  induction vms with
  | nil => simp [discoverLoop] at h
  | cons v rest ih =>
    rw [discoverLoop] at h
    split at h
    case isTrue hs =>
      split at h
      case isTrue hn =>
        obtain ⟨hmem, hrest⟩ := ih h
        exact ⟨List.mem_cons_of_mem v hmem, hrest⟩
      case isFalse hn =>
        cases hf : findCDPForward v.portForwards with
        | some pf =>
          rw [hf] at h
          obtain ⟨hhp, hvm⟩ : pf.hostPort = hp ∧ v = vm := by simpa using h
          subst hhp
          subst hvm
          simp only [Bool.and_eq_true, bne_iff_ne, ne_eq, not_and, not_not] at hn
          exact ⟨List.mem_cons_self _ _, by simpa using hs, hn, pf, hf, rfl⟩
        | none =>
          rw [hf] at h
          obtain ⟨hmem, hrest⟩ := ih h
          exact ⟨List.mem_cons_of_mem v hmem, hrest⟩
    case isFalse hs =>
      obtain ⟨hmem, hrest⟩ := ih h
      exact ⟨List.mem_cons_of_mem v hmem, hrest⟩

theorem discoverLoop_none {name : String} {vms : List VM}
    (h : discoverLoop name vms = none) :
    ∀ vm ∈ vms, vm.status = "RUNNING" → (name = "" ∨ vm.vmName = name) →
      findCDPForward vm.portForwards = none := by
  induction vms with
  | nil => intro vm hmem; simp at hmem
  | cons v rest ih =>
    intro vm hmem hrun hname
    rw [discoverLoop] at h
    split at h
    case isTrue hs =>
      split at h
      case isTrue hn =>
        rcases List.mem_cons.mp hmem with hvm | hvm
        · subst hvm
          simp only [Bool.and_eq_true, bne_iff_ne, ne_eq] at hn
          rcases hname with h0 | heq
          · exact absurd h0 hn.1
          · exact absurd heq hn.2
        · exact ih h vm hvm hrun hname
      case isFalse hn =>
        cases hf : findCDPForward v.portForwards with
        | some pf => rw [hf] at h; cases h
        | none =>
          rw [hf] at h
          rcases List.mem_cons.mp hmem with hvm | hvm
          · subst hvm; exact hf
          · exact ih h vm hvm hrun hname
    case isFalse hs =>
      rcases List.mem_cons.mp hmem with hvm | hvm
      · subst hvm; exact absurd hrun (by simpa using hs)
      · exact ih h vm hvm hrun hname

theorem discoverLoop_none_of_no_match {name : String} {vms : List VM}
    (h : ∀ vm ∈ vms, vm.status = "RUNNING" → (name = "" ∨ vm.vmName = name) →
      findCDPForward vm.portForwards = none) :
    discoverLoop name vms = none := by
  induction vms with
  | nil => rfl
  | cons v rest ih =>
    have hrest : discoverLoop name rest = none :=
      ih fun vm hmem => h vm (List.mem_cons_of_mem v hmem)
    rw [discoverLoop]
    split
    case isTrue hs =>
      split
      case isTrue hn => exact hrest
      case isFalse hn =>
        have hv : findCDPForward v.portForwards = none := by
          simp only [Bool.and_eq_true, bne_iff_ne, ne_eq, not_and, not_not] at hn
          by_cases h0 : name = ""
          · exact h v (List.mem_cons_self v rest) (by simpa using hs) (Or.inl h0)
          · exact h v (List.mem_cons_self v rest) (by simpa using hs) (Or.inr (hn h0))
        rw [hv]
        exact hrest
    case isFalse hs => exact hrest

theorem discoverCDPPort_ok_iff (name : String) (vms : List VM) (r : String × VM) :
    discoverCDPPort name vms = Except.ok r ↔ discoverLoop name vms = some r := by
  unfold discoverCDPPort
  cases discoverLoop name vms with
  | some r0 => simp
  | none =>
    by_cases h0 : (name != "") = true
    · simp [h0]
    · simp [h0]

/-- C2: for every machine listing, resolution with an explicit target name
only ever returns the named machine: whenever `discoverCDPPort` succeeds, the
returned VM carries the requested name, is RUNNING, and the returned host
port comes from the first matching cdp/9223 forward of that very machine;
and whenever a RUNNING machine with the requested name and a matching
forward is listed (no matter how many other matching machines precede it),
resolution succeeds with a machine of that name. -/
theorem discover_named_returns_only_named (name : String) (vms : List VM)
    (hname : name ≠ "") :
    (∀ hp vm, discoverCDPPort name vms = Except.ok (hp, vm) →
      vm ∈ vms ∧ vm.vmName = name ∧ vm.status = "RUNNING" ∧
      ∃ pf, findCDPForward vm.portForwards = some pf ∧ pf.hostPort = hp) ∧
    ((∃ vm, vm ∈ vms ∧ vm.status = "RUNNING" ∧ vm.vmName = name ∧
        (findCDPForward vm.portForwards).isSome = true) →
      ∃ hp vm, discoverCDPPort name vms = Except.ok (hp, vm) ∧ vm.vmName = name) := by
  constructor
  · intro hp vm h
    have hloop : discoverLoop name vms = some (hp, vm) :=
      (discoverCDPPort_ok_iff name vms (hp, vm)).mp h
    obtain ⟨hmem, hrun, hn, hpf⟩ := discoverLoop_ok hloop
    exact ⟨hmem, hn hname, hrun, hpf⟩
  · rintro ⟨vm, hmem, hrun, hvn, hsome⟩
    cases hl : discoverLoop name vms with
    | some r =>
      obtain ⟨hp0, vm0⟩ := r
      have hok : discoverCDPPort name vms = Except.ok (hp0, vm0) :=
        (discoverCDPPort_ok_iff name vms (hp0, vm0)).mpr hl
      obtain ⟨_, _, hn, _⟩ := discoverLoop_ok hl
      exact ⟨hp0, vm0, hok, hn hname⟩
    | none =>
      have := discoverLoop_none hl vm hmem hrun (Or.inr hvn)
      rw [this] at hsome
      cases hsome

/-- Witness for C2: two RUNNING machines "a" and "b" both expose a cdp/9223
forward, "a" first in listing order; named resolution for "b" returns
machine "b"'s forward. -/
theorem discover_named_returns_only_named_witness :
    ("b" : String) ≠ "" ∧
    discoverCDPPort "b"
      [⟨"a", "RUNNING", "10.0.0.4", [⟨"cdp", "9223", "4400"⟩]⟩,
       ⟨"b", "RUNNING", "10.0.0.5", [⟨"cdp", "9223", "4500"⟩]⟩] =
      Except.ok ("4500", ⟨"b", "RUNNING", "10.0.0.5", [⟨"cdp", "9223", "4500"⟩]⟩) ∧
    (⟨"b", "RUNNING", "10.0.0.5", [⟨"cdp", "9223", "4500"⟩]⟩ : VM).vmName = "b" := by
  refine ⟨by decide, rfl, ?_⟩
  have h := (discover_named_returns_only_named "b"
    [⟨"a", "RUNNING", "10.0.0.4", [⟨"cdp", "9223", "4400"⟩]⟩,
     ⟨"b", "RUNNING", "10.0.0.5", [⟨"cdp", "9223", "4500"⟩]⟩] (by decide)).1
  exact (h "4500" ⟨"b", "RUNNING", "10.0.0.5", [⟨"cdp", "9223", "4500"⟩]⟩ rfl).2.1

/-- C3: whenever no RUNNING machine satisfies the name filter and the
cdp/9223 forward lookup (in particular when no machine is RUNNING at all),
resolution fails — with the named-not-found error when a target name was
given and the none-available error when it was not — and `proxyHandler`
surfaces the failure as a 503 service-unavailable response. -/
theorem discover_no_match_fails_503 (name : String) (vms : List VM)
    (h : ∀ vm ∈ vms, vm.status = "RUNNING" → (name = "" ∨ vm.vmName = name) →
      findCDPForward vm.portForwards = none) :
    discoverCDPPort name vms =
      Except.error (if name = "" then DiscoveryError.noneAvailable
                    else DiscoveryError.namedNotFound) ∧
    proxyHandlerResolve name vms = HandlerStep.errorResponse 503 := by
  have hl : discoverLoop name vms = none := discoverLoop_none_of_no_match h
  have hd : discoverCDPPort name vms =
      Except.error (if name = "" then DiscoveryError.noneAvailable
                    else DiscoveryError.namedNotFound) := by
    unfold discoverCDPPort
    rw [hl]
    by_cases h0 : name = ""
    · simp [h0]
    · simp [h0]
  refine ⟨hd, ?_⟩
  unfold proxyHandlerResolve
  rw [hd]

/-- Witness for C3: a listing with zero RUNNING machines; named resolution
fails with the named-not-found error and the handler answers 503. -/
theorem discover_no_match_fails_503_witness :
    discoverCDPPort "a" [⟨"a", "STOPPED", "10.0.0.4", [⟨"cdp", "9223", "4400"⟩]⟩] =
      Except.error DiscoveryError.namedNotFound ∧
    proxyHandlerResolve "a" [⟨"a", "STOPPED", "10.0.0.4", [⟨"cdp", "9223", "4400"⟩]⟩] =
      HandlerStep.errorResponse 503 := by
  have h := discover_no_match_fails_503 "a"
    [⟨"a", "STOPPED", "10.0.0.4", [⟨"cdp", "9223", "4400"⟩]⟩]
    (by
      intro vm hmem hrun
      simp only [List.mem_singleton] at hmem
      subst hmem
      simp at hrun)
  simpa using h

/-- C4: unnamed resolution scans the RUNNING machines in listing order and,
within each machine, its port-forward list in order, and returns the host
port of the first forward whose description is "cdp" and whose guest port is
"9223": if every RUNNING machine before `vm` has no matching forward, `vm`
is RUNNING, and `pf` is the first matching entry of `vm`'s forward list,
then resolution returns `pf`'s host port together with `vm`. -/
theorem discover_unnamed_first_match (pre post : List VM) (vm : VM)
    (pfs1 pfs2 : List PortForward) (pf : PortForward)
    (hpre : ∀ v ∈ pre, v.status = "RUNNING" → findCDPForward v.portForwards = none)
    (hvm : vm.status = "RUNNING")
    (hpfs : vm.portForwards = pfs1 ++ pf :: pfs2)
    (h1 : ∀ q ∈ pfs1, cdpForwardMatch q = false)
    (h2 : cdpForwardMatch pf = true) :
    discoverCDPPort "" (pre ++ vm :: post) = Except.ok (pf.hostPort, vm) := by
  have hfind : findCDPForward vm.portForwards = some pf := by
    rw [hpfs]
    exact findCDPForward_first pfs1 pf pfs2 h1 h2
  have hloop : discoverLoop "" (pre ++ vm :: post) = some (pf.hostPort, vm) := by
    induction pre with
    | nil =>
      rw [List.nil_append, discoverLoop]
      rw [if_pos (by simpa using hvm)]
      simp only [bne_self_eq_false, Bool.false_and, Bool.false_eq_true, if_false]
      rw [hfind]
    | cons v rest ih =>
      rw [List.cons_append, discoverLoop]
      split
      case isTrue hs =>
        simp only [bne_self_eq_false, Bool.false_and, Bool.false_eq_true, if_false]
        rw [hpre v (List.mem_cons_self v rest) (by simpa using hs)]
        exact ih fun u hu => hpre u (List.mem_cons_of_mem v hu)
      case isFalse hs =>
        exact ih fun u hu => hpre u (List.mem_cons_of_mem v hu)
  unfold discoverCDPPort
  rw [hloop]

/-- Witness for C4: a listing with exactly one RUNNING machine exposing a
cdp/9223 forward (behind a stopped machine and a non-matching forward);
unnamed resolution returns that machine's external port. -/
theorem discover_unnamed_first_match_witness :
    discoverCDPPort ""
      [⟨"x", "STOPPED", "10.0.0.3", [⟨"cdp", "9223", "4300"⟩]⟩,
       ⟨"y", "RUNNING", "10.0.0.4", [⟨"ssh", "22", "2200"⟩, ⟨"cdp", "9223", "4400"⟩]⟩] =
      Except.ok ("4400", ⟨"y", "RUNNING", "10.0.0.4",
        [⟨"ssh", "22", "2200"⟩, ⟨"cdp", "9223", "4400"⟩]⟩) := by
  have h := discover_unnamed_first_match
    [⟨"x", "STOPPED", "10.0.0.3", [⟨"cdp", "9223", "4300"⟩]⟩] []
    ⟨"y", "RUNNING", "10.0.0.4", [⟨"ssh", "22", "2200"⟩, ⟨"cdp", "9223", "4400"⟩]⟩
    [⟨"ssh", "22", "2200"⟩] [] ⟨"cdp", "9223", "4400"⟩
    (by
      intro v hv hrun
      simp only [List.mem_singleton] at hv
      subst hv
      simp at hrun)
    rfl rfl
    (by intro q hq; simp only [List.mem_singleton] at hq; subst hq; decide)
    (by decide)
  simpa using h

/-- State of one relay session's teardown protocol in `websocketProxy`:
`onceDone` records whether the `sync.Once` (`doneOnce`) has been consumed,
`doneClosed` whether the shared `done` channel has been closed, and `fault`
whether a close-of-closed-channel panic (Go's double-close fault) occurred. -/
structure RelayState where
  onceDone : Bool
  doneClosed : Bool
  fault : Bool
deriving DecidableEq, Repr

/-- Go channel close semantics: `close(done)` panics when the channel is
already closed, otherwise marks it closed. -/
def closeChan (s : RelayState) : RelayState :=
  if s.doneClosed then { s with fault := true }
  else { s with doneClosed := true }

/-- `doneOnce.Do(func() { close(done) })`: the body runs only if the `Once`
has not fired yet; the `Once` is consumed atomically (its internal mutex
serialises concurrent callers). -/
def onceDo (s : RelayState) : RelayState :=
  if s.onceDone then s else closeChan { s with onceDone := true }

/-- The two forwarding tasks of a relay session: client→chrome and
chrome→client. Each one invokes `onceDo` from its deferred block when it
terminates. -/
inductive Leg where
  | clientToChrome
  | chromeToClient
deriving DecidableEq, Repr

/-- The initial state of a relay session's teardown protocol: `done` open,
`Once` unfired, no fault. -/
def initRelay : RelayState := ⟨false, false, false⟩

/-- Run an interleaving of leg terminations: each terminating leg performs
`doneOnce.Do(close done)`; the `Once`'s mutex makes each invocation atomic,
so an interleaving is a sequence of `onceDo` steps. -/
def runTeardown (events : List Leg) (s : RelayState) : RelayState :=
  match events with
  | [] => s
  | _ :: rest => runTeardown rest (onceDo s)

/-- How many of the events actually execute `close(done)` (i.e. find the
`Once` unfired). -/
def closeCount (events : List Leg) (s : RelayState) : Nat :=
  match events with
  | [] => 0
  | _ :: rest => (if s.onceDone then 0 else 1) + closeCount rest (onceDo s)

theorem onceDo_of_onceDone {s : RelayState} (h : s.onceDone = true) : onceDo s = s := by
  unfold onceDo
  rw [h]
  simp

theorem runTeardown_frozen {events : List Leg} {s : RelayState}
    (h : s.onceDone = true) : runTeardown events s = s := by
  induction events with
  | nil => rfl
  | cons e rest ih =>
    unfold runTeardown
    rw [onceDo_of_onceDone h]
    exact ih

theorem closeCount_frozen {events : List Leg} {s : RelayState}
    (h : s.onceDone = true) : closeCount events s = 0 := by
  induction events with
  | nil => rfl
  | cons e rest ih =>
    unfold closeCount
    rw [h, onceDo_of_onceDone h]
    simpa using ih

/-- C1: for every interleaving of leg terminations of one relay session
(including both legs failing concurrently), the `done` channel transitions
from open to closed at most once: the first terminating leg performs the
single `close`, every later termination is a no-op, and no double-close
fault is ever raised. -/
theorem relay_done_closes_once (events : List Leg) :
    (runTeardown events initRelay).fault = false ∧
    closeCount events initRelay = min events.length 1 ∧
    (events ≠ [] → (runTeardown events initRelay).doneClosed = true ∧
      closeCount events initRelay = 1) := by
  cases events with
  | nil => exact ⟨rfl, rfl, fun h => absurd rfl h⟩
  | cons e rest =>
    have hstep : onceDo initRelay = ⟨true, true, false⟩ := rfl
    have hrun : runTeardown (e :: rest) initRelay = ⟨true, true, false⟩ := by
      unfold runTeardown
      rw [hstep]
      exact runTeardown_frozen rfl
    have hcount : closeCount (e :: rest) initRelay = 1 := by
      unfold closeCount
      rw [hstep]
      have : closeCount rest (⟨true, true, false⟩ : RelayState) = 0 :=
        closeCount_frozen rfl
      simp [initRelay, this]
    refine ⟨by rw [hrun], ?_, fun _ => ⟨by rw [hrun], hcount⟩⟩
    rw [hcount]
    simp [Nat.min_def]

/-- Witness for C1: both legs terminate concurrently (one interleaving of
the two failures): exactly one close, no fault. -/
theorem relay_done_closes_once_witness :
    ([Leg.clientToChrome, Leg.chromeToClient] : List Leg) ≠ [] ∧
    (runTeardown [Leg.clientToChrome, Leg.chromeToClient] initRelay).fault = false ∧
    (runTeardown [Leg.clientToChrome, Leg.chromeToClient] initRelay).doneClosed = true ∧
    closeCount [Leg.clientToChrome, Leg.chromeToClient] initRelay = 1 := by
  have h := relay_done_closes_once [Leg.clientToChrome, Leg.chromeToClient]
  exact ⟨by decide, h.1, (h.2.2 (by decide)).1, (h.2.2 (by decide)).2⟩

/-- One scanning pass of Go's `strings.ReplaceAll(s, pat, rep)` for a
non-empty `pat`: at each position, if `pat` is a prefix, emit `rep` and skip
`pat.length` characters, else emit one character and advance; occurrences
are replaced left to right, non-overlapping. The `fuel` argument makes the
recursion structural; `replaceAll` below supplies `s.length` fuel, which is
always sufficient since every step consumes at least one character. (Go
treats an empty `pat` specially; the rewrite below only ever passes
non-empty patterns, for which the guard makes the scan a plain copy.) -/
def replaceAllGo (pat rep : List Char) : Nat → List Char → List Char
  | _, [] => []
  | 0, s => s
  | Nat.succ fuel, c :: rest =>
    if pat.isPrefixOf (c :: rest) && !pat.isEmpty then
      rep ++ replaceAllGo pat rep fuel (List.drop (pat.length - 1) rest)
    else c :: replaceAllGo pat rep fuel rest

/-- `strings.ReplaceAll(s, pat, rep)` on character lists. -/
def replaceAll (pat rep s : List Char) : List Char :=
  replaceAllGo pat rep s.length s

/-- `pat` occurs as a contiguous substring of `s`. -/
def occursIn (pat : List Char) : List Char → Bool
  | [] => pat.isPrefixOf []
  | c :: rest => pat.isPrefixOf (c :: rest) || occursIn pat rest

theorem prefixOf_exists : ∀ (p s : List Char),
    p.isPrefixOf s = true ↔ ∃ t, s = p ++ t
  | [], s => by simp [List.isPrefixOf]
  | a :: p, [] => by simp [List.isPrefixOf]
  | a :: p, b :: s => by
    simp only [List.isPrefixOf, Bool.and_eq_true, beq_iff_eq, List.cons_append]
    constructor
    · rintro ⟨rfl, h⟩
      obtain ⟨t, rfl⟩ := (prefixOf_exists p s).mp h
      exact ⟨t, rfl⟩
    · rintro ⟨t, ht⟩
      injection ht with h1 h2
      exact ⟨h1.symm, (prefixOf_exists p s).mpr ⟨t, h2⟩⟩

theorem occursIn_exists (pat : List Char) : ∀ (s : List Char),
    occursIn pat s = true ↔ ∃ l r, s = l ++ pat ++ r := by
  intro s
  induction s with
  | nil =>
    simp only [occursIn, prefixOf_exists]
    constructor
    · rintro ⟨t, ht⟩
      exact ⟨[], t, by simpa using ht⟩
    · rintro ⟨l, r, h⟩
      obtain ⟨hlp, hr⟩ := List.append_eq_nil.mp h.symm
      obtain ⟨hl, hp⟩ := List.append_eq_nil.mp hlp
      exact ⟨[], by simp [hp]⟩
  | cons c rest ih =>
    simp only [occursIn, Bool.or_eq_true, prefixOf_exists, ih]
    constructor
    · rintro (⟨t, ht⟩ | ⟨l, r, hr⟩)
      · exact ⟨[], t, by simpa using ht⟩
      · exact ⟨c :: l, r, by simp [hr]⟩
    · rintro ⟨l, r, h⟩
      cases l with
      | nil => exact Or.inl ⟨r, by simpa using h⟩
      | cons x xs =>
        injection h with h1 h2
        exact Or.inr ⟨xs, r, h2⟩

theorem occursIn_sub {pat s : List Char} (a b : List Char)
    (h : occursIn pat s = false) : occursIn (a ++ pat ++ b) s = false := by
  by_contra hc
  rw [Bool.not_eq_false, occursIn_exists] at hc
  obtain ⟨l, r, hr⟩ := hc
  have : occursIn pat s = true := by
    rw [occursIn_exists]
    exact ⟨l ++ a, b ++ r, by simp [hr]⟩
  rw [this] at h
  cases h

theorem replaceAllGo_no_occur {pat rep : List Char} :
    ∀ (fuel : Nat) (s : List Char), occursIn pat s = false →
      replaceAllGo pat rep fuel s = s := by
  intro fuel
  induction fuel with
  | zero => intro s _; cases s <;> rfl
  | succ fuel ih =>
    intro s h
    cases s with
    | nil => rfl
    | cons c rest =>
      unfold occursIn at h
      rw [Bool.or_eq_false_iff] at h
      unfold replaceAllGo
      rw [h.1]
      simp only [Bool.false_and, Bool.false_eq_true, if_false]
      rw [ih rest h.2]

theorem replaceAll_no_occur {pat rep s : List Char}
    (h : occursIn pat s = false) : replaceAll pat rep s = s :=
  replaceAllGo_no_occur s.length s h

example : replaceAll "ab".toList "X".toList "zababz".toList = "zXXz".toList := rfl

/-- The response-body URL rewrite of `proxyHandler` (the four
`strings.ReplaceAll` calls, in source order). `chromePattern` is the
backend address the handler substitutes (in the source,
`fmt.Sprintf("127.0.0.1:%s", forwardedPort)`), `hostURL` the externally
visible host taken from the inbound request. -/
def rewriteBody (chromePattern hostURL body : List Char) : List Char :=
  let s1 := replaceAll ("ws://".toList ++ chromePattern ++ "/devtools/".toList)
                       ("ws://".toList ++ hostURL ++ "/devtools/".toList) body
  let s2 := replaceAll ("\"ws=".toList ++ chromePattern ++ "/devtools/".toList)
                       ("\"ws=".toList ++ hostURL ++ "/devtools/".toList) s1
  let s3 := replaceAll ("ws://".toList ++ chromePattern)
                       ("ws://".toList ++ hostURL) s2
  let s4 := replaceAll ("?ws=".toList ++ chromePattern ++ "/devtools/".toList)
                       ("?ws=".toList ++ hostURL ++ "/devtools/".toList) s3
  s4

theorem rewriteBody_no_occur {cp hostURL body : List Char}
    (h : occursIn cp body = false) : rewriteBody cp hostURL body = body := by
  unfold rewriteBody
  have h1 : occursIn ("ws://".toList ++ cp ++ "/devtools/".toList) body = false :=
    occursIn_sub _ _ h
  have h2 : occursIn ("\"ws=".toList ++ cp ++ "/devtools/".toList) body = false :=
    occursIn_sub _ _ h
  have h3 : occursIn ("ws://".toList ++ cp) body = false := by
    have := occursIn_sub ("ws://".toList) [] h
    simpa using this
  have h4 : occursIn ("?ws=".toList ++ cp ++ "/devtools/".toList) body = false :=
    occursIn_sub _ _ h
  simp only [replaceAll_no_occur h1, replaceAll_no_occur h2,
    replaceAll_no_occur h3, replaceAll_no_occur h4]

/-- C5 counterexample: the rewrite is not idempotent for every body, backend
address and public host. With backend address `127.0.0.1:9223`, public host
`127.0.0.1:922` and body `ws://127.0.0.1:92233`, the first application
yields `ws://127.0.0.1:9223` (the replacement plus the trailing character
re-forms the pattern) and a second application rewrites it again. -/
theorem rewrite_not_idempotent_cex :
    rewriteBody "127.0.0.1:9223".toList "127.0.0.1:922".toList
        (rewriteBody "127.0.0.1:9223".toList "127.0.0.1:922".toList
          "ws://127.0.0.1:92233".toList) ≠
      rewriteBody "127.0.0.1:9223".toList "127.0.0.1:922".toList
        "ws://127.0.0.1:92233".toList := by
  decide

/-- C5 (amended): the rewrite leaves every body with no occurrence of the
backend address byte-identical; consequently applying it to its own output
is a no-op whenever that output no longer contains the backend address (in
general, re-replacement can re-form the pattern, as the counterexample
shows); and on the spec's example — body
`{"url":"ws://10.0.0.5:9223/devtools/page/1"}`, backend address
`10.0.0.5:9223`, public host `example.com:7000` — it yields
`{"url":"ws://example.com:7000/devtools/page/1"}` and re-applying it to
that output is a no-op. -/
theorem rewrite_idempotent_amended (cp hostURL body : List Char) :
    (occursIn cp body = false → rewriteBody cp hostURL body = body) ∧
    (occursIn cp (rewriteBody cp hostURL body) = false →
      rewriteBody cp hostURL (rewriteBody cp hostURL body) =
        rewriteBody cp hostURL body) ∧
    (rewriteBody "10.0.0.5:9223".toList "example.com:7000".toList
        "\x7b\"url\":\"ws://10.0.0.5:9223/devtools/page/1\"\x7d".toList =
      "\x7b\"url\":\"ws://example.com:7000/devtools/page/1\"\x7d".toList ∧
     rewriteBody "10.0.0.5:9223".toList "example.com:7000".toList
        "\x7b\"url\":\"ws://example.com:7000/devtools/page/1\"\x7d".toList =
      "\x7b\"url\":\"ws://example.com:7000/devtools/page/1\"\x7d".toList) := by
  refine ⟨fun h => rewriteBody_no_occur h, fun h => rewriteBody_no_occur h, ?_, ?_⟩
  · decide
  · decide

/-- Witness for C5 (amended): a body with no occurrence of the backend
address is left unchanged, and re-applying the rewrite to an output free of
the backend address is a no-op. -/
theorem rewrite_idempotent_amended_witness :
    occursIn "10.0.0.5:9223".toList "plain text".toList = false ∧
    rewriteBody "10.0.0.5:9223".toList "example.com:7000".toList
      "plain text".toList = "plain text".toList := by
  refine ⟨by decide, ?_⟩
  exact (rewrite_idempotent_amended "10.0.0.5:9223".toList
    "example.com:7000".toList "plain text".toList).1 (by decide)

/-- The `forwardedPort` computation of `proxyHandler`: scan the resolved
VM's port forwards for the first one whose description is "cdp" and take its
guest port; default "9223" when none is found. (The scan checks only the
description, not the guest port.) -/
def forwardedPortOf (vm : VM) : String :=
  match vm.portForwards.find? (fun pf => pf.description == "cdp") with
  | some pf => pf.guestPort
  | none => "9223"

/-- The `chromePattern` the rewrite substitutes:
`fmt.Sprintf("127.0.0.1:%s", forwardedPort)`. -/
def chromePatternOf (vm : VM) : String := "127.0.0.1:" ++ forwardedPortOf vm

/-- The host part of the address the backend is actually dialed at, in both
the HTTP forward (`http://127.0.0.1:<hostPort>...`) and the websocket relay
(`ws://127.0.0.1:<hostPort>...`). -/
def dialAddressOf (hostPort : String) : String := "127.0.0.1:" ++ hostPort

/-- C10 counterexample: the substituted pattern can coincide with the dialed
address. A RUNNING VM whose only forward is `{cdp, guest 9223, host 9223}`
resolves to host port "9223", and the rewrite pattern `127.0.0.1:9223`
equals the dialed address `127.0.0.1:9223`, contradicting the claim's "is
not the 127.0.0.1:<external host port> address" part. -/
theorem rewrite_pattern_equals_dial_cex :
    discoverCDPPort "" [⟨"eq", "RUNNING", "10.0.0.9", [⟨"cdp", "9223", "9223"⟩]⟩] =
      Except.ok ("9223", ⟨"eq", "RUNNING", "10.0.0.9", [⟨"cdp", "9223", "9223"⟩]⟩) ∧
    chromePatternOf ⟨"eq", "RUNNING", "10.0.0.9", [⟨"cdp", "9223", "9223"⟩]⟩ =
      dialAddressOf "9223" := ⟨rfl, rfl⟩

/-- C10 (amended): the backend address the rewriter substitutes is always
the literal `127.0.0.1` paired with the guest port of the resolved VM's
first port forward described "cdp" — defaulting to `127.0.0.1:9223` when
the VM lists no such forward — and it differs from the
`127.0.0.1:<hostPort>` address the backend is dialed at whenever that guest
port differs from the resolved host port (they can coincide, as the
counterexample shows). -/
theorem rewrite_pattern_guest_port_amended (vm : VM) (hostPort : String) :
    (∀ pf, vm.portForwards.find? (fun p => p.description == "cdp") = some pf →
      chromePatternOf vm = "127.0.0.1:" ++ pf.guestPort) ∧
    (vm.portForwards.find? (fun p => p.description == "cdp") = none →
      chromePatternOf vm = "127.0.0.1:9223") ∧
    (forwardedPortOf vm ≠ hostPort → chromePatternOf vm ≠ dialAddressOf hostPort) := by
  refine ⟨?_, ?_, ?_⟩
  · intro pf hf
    unfold chromePatternOf forwardedPortOf
    rw [hf]
  · intro hf
    unfold chromePatternOf forwardedPortOf
    rw [hf]
    rfl
  · intro hne heq
    apply hne
    unfold chromePatternOf dialAddressOf at heq
    have hd := congrArg String.data heq
    simp only [String.data_append] at hd
    exact String.ext (List.append_cancel_left hd)

/-- Witness for C10 (amended): a VM whose first "cdp"-described forward has
guest port "9223" while the resolved host port is "41000"; the substituted
pattern is `127.0.0.1:9223`, not the dialed `127.0.0.1:41000`. -/
theorem rewrite_pattern_guest_port_amended_witness :
    chromePatternOf ⟨"s1", "RUNNING", "10.0.0.7", [⟨"cdp", "9223", "41000"⟩]⟩ =
      "127.0.0.1:9223" ∧
    chromePatternOf ⟨"s1", "RUNNING", "10.0.0.7", [⟨"cdp", "9223", "41000"⟩]⟩ ≠
      dialAddressOf "41000" := by
  constructor
  · exact (rewrite_pattern_guest_port_amended
      ⟨"s1", "RUNNING", "10.0.0.7", [⟨"cdp", "9223", "41000"⟩]⟩ "41000").1
      ⟨"cdp", "9223", "41000"⟩ rfl
  · exact (rewrite_pattern_guest_port_amended
      ⟨"s1", "RUNNING", "10.0.0.7", [⟨"cdp", "9223", "41000"⟩]⟩ "41000").2.2
      (by decide)

/-- An inbound request as far as the proxy inspects it: method, path, the
parsed query pairs (Go's `url.Values`; `Encode` re-serialises them sorted by
key, ordering is not modelled — the claims here are about which pairs are
kept), and the header pairs. -/
structure InboundRequest where
  method : String
  path : String
  query : List (String × String)
  headers : List (String × String)
deriving DecidableEq, Repr

/-- `values.Del("vm")` applied to the parsed query: every pair keyed "vm" is
removed, every other pair kept. -/
def forwardQuery (q : List (String × String)) : List (String × String) :=
  q.filter (fun kv => kv.1 != "vm")

/-- The request-header copy loop of `proxyHandler`: every header except
"Host" is added to the outbound request. -/
def forwardHeaders (hs : List (String × String)) : List (String × String) :=
  hs.filter (fun kv => kv.1 != "Host")

/-- The outbound request/handshake the proxy issues against the backend. -/
structure OutboundTarget where
  host : String
  path : String
  query : List (String × String)
  method : String
  headers : List (String × String)
deriving DecidableEq, Repr

/-- The outbound HTTP request of `proxyHandler`:
`http.NewRequest(r.Method, "http://127.0.0.1:<hostPort>" + path + query, r.Body)`
with the vm query parameter deleted and all headers but "Host" copied. -/
def buildHTTPOutbound (hostPort : String) (r : InboundRequest) : OutboundTarget :=
  { host := "127.0.0.1:" ++ hostPort
    path := r.path
    query := forwardQuery r.query
    method := r.method
    headers := forwardHeaders r.headers }

/-- The outbound websocket handshake of `websocketProxy`:
`websocket.DefaultDialer.Dial(chromeURL, nil)` — a GET handshake against
`ws://127.0.0.1:<hostPort>` with the same path and vm-stripped query, and a
`nil` header argument: no inbound request header is forwarded. -/
def buildWsOutbound (hostPort : String) (r : InboundRequest) : OutboundTarget :=
  { host := "127.0.0.1:" ++ hostPort
    path := r.path
    query := forwardQuery r.query
    method := "GET"
    headers := [] }

/-- C8 counterexample: in the socket-relay path no inbound request header is
copied at all — the dial passes a nil header set — so a non-Host header such
as `X-Custom: 1` does not reach the backend handshake, contradicting the
claim's "all request headers except the Host header are copied" for that
path. -/
theorem ws_headers_not_copied_cex :
    ("X-Custom", "1") ∈
      (⟨"GET", "/devtools/page/1", [], [("X-Custom", "1")]⟩ : InboundRequest).headers ∧
    ("X-Custom" : String) ≠ "Host" ∧
    (buildWsOutbound "41000"
      ⟨"GET", "/devtools/page/1", [], [("X-Custom", "1")]⟩).headers = [] := by
  refine ⟨List.mem_singleton.mpr rfl, by decide, rfl⟩

/-- C8 (amended): in both paths the outbound target preserves the inbound
path, removes the "vm" routing query parameter and retains every other
query pair; the HTTP-forward path also preserves the method and copies all
request headers except "Host", while the socket-relay dial is always a GET
handshake that forwards no inbound headers at all. -/
theorem outbound_request_shape_amended (hostPort : String) (r : InboundRequest) :
    (buildHTTPOutbound hostPort r).method = r.method ∧
    (buildHTTPOutbound hostPort r).path = r.path ∧
    (∀ kv, kv ∈ (buildHTTPOutbound hostPort r).query ↔ kv ∈ r.query ∧ kv.1 ≠ "vm") ∧
    (∀ kv, kv ∈ (buildHTTPOutbound hostPort r).headers ↔
      kv ∈ r.headers ∧ kv.1 ≠ "Host") ∧
    (buildWsOutbound hostPort r).path = r.path ∧
    (∀ kv, kv ∈ (buildWsOutbound hostPort r).query ↔ kv ∈ r.query ∧ kv.1 ≠ "vm") ∧
    (buildWsOutbound hostPort r).headers = [] := by
  refine ⟨rfl, rfl, ?_, ?_, rfl, ?_, rfl⟩ <;>
  · intro kv
    simp [buildHTTPOutbound, buildWsOutbound, forwardQuery, forwardHeaders,
      List.mem_filter]

/-- Query re-serialisation (`values.Encode()`), joining pairs with `&`.
(Go sorts pairs by key; ordering is irrelevant to the claims and is not
modelled.) -/
def encodeQuery : List (String × String) → String
  | [] => ""
  | [kv] => kv.1 ++ "=" ++ kv.2
  | kv :: rest => kv.1 ++ "=" ++ kv.2 ++ "&" ++ encodeQuery rest

/-- The `targetPath` computation of `websocketProxy`: the inbound path, plus
the vm-stripped query when the inbound query was non-empty and at least one
pair survives. -/
def targetPathOf (r : InboundRequest) : String :=
  if r.query.isEmpty then r.path
  else
    match forwardQuery r.query with
    | [] => r.path
    | q => r.path ++ "?" ++ encodeQuery q

/-- The `chromeURL` the relay dials:
`fmt.Sprintf("ws://127.0.0.1:%s%s", hostPort, targetPath)`. -/
def wsURL (hostPort : String) (r : InboundRequest) : String :=
  "ws://127.0.0.1:" ++ hostPort ++ targetPathOf r

/-- The observable actions of one `websocketProxy` invocation, in order:
dialing the backend, writing a close control message to the inbound client
(`WriteMessage(CloseMessage, FormatCloseMessage(1002, "Chrome not
available"))`), and entering the two-goroutine relay loop. -/
inductive RelayAction where
  | dialBackend (url : String)
  | sendCloseMsg (code : Nat) (reason : String)
  | relayLoop
deriving DecidableEq, Repr

/-- Tests whether an action is a close notification to the inbound side. -/
def isCloseMsg : RelayAction → Bool
  | RelayAction.sendCloseMsg _ _ => true
  | _ => false

/-- The control flow of `websocketProxy` as the ordered list of its
observable actions, indexed by the outcome of the upgrade handshake and of
the backend dial: a failed upgrade returns before anything else; a failed
dial sends one close message with reason code 1002 and returns; otherwise
the relay loop runs. -/
def websocketProxyTrace (upgradeOk dialOk : Bool) (hostPort : String)
    (r : InboundRequest) : List RelayAction :=
  if !upgradeOk then []
  else
    RelayAction.dialBackend (wsURL hostPort r) ::
      (if !dialOk then [RelayAction.sendCloseMsg 1002 "Chrome not available"]
       else [RelayAction.relayLoop])

/-- C7: a failed inbound upgrade aborts the session with no backend dial;
a failed backend dial produces exactly one close notification to the
inbound side — carrying close code 1002 and the machine-readable reason
"Chrome not available" — and the session ends without relaying any
message. -/
theorem ws_relay_failure_paths (dialOk : Bool) (hostPort : String)
    (r : InboundRequest) :
    (websocketProxyTrace false dialOk hostPort r = [] ∧
      ∀ u, RelayAction.dialBackend u ∉ websocketProxyTrace false dialOk hostPort r) ∧
    (websocketProxyTrace true false hostPort r =
        [RelayAction.dialBackend (wsURL hostPort r),
         RelayAction.sendCloseMsg 1002 "Chrome not available"] ∧
      (websocketProxyTrace true false hostPort r).countP isCloseMsg = 1 ∧
      RelayAction.relayLoop ∉ websocketProxyTrace true false hostPort r) := by
  refine ⟨⟨rfl, ?_⟩, rfl, rfl, ?_⟩
  · intro u
    simp [websocketProxyTrace]
  · simp [websocketProxyTrace]

/-- Outcome of the outbound backend call, abstracting over the wire: the
backend replies (with status, headers, body) after `after` seconds, the
connection fails after `t` seconds, or the backend accepts the connection
but never responds. -/
inductive CallOutcome where
  | replied (status : Nat) (headers : List (String × String)) (body : List Char)
      (after : Nat)
  | failedAfter (t : Nat)
  | neverResponds
deriving DecidableEq, Repr

/-- The fixed wall-clock timeout of the outbound call, in seconds:
`client := &http.Client{Timeout: 30 * time.Second}`. -/
def clientTimeout : Nat := 30

/-- `client.Do(req)` under the configured timeout: a reply delivered before
the timeout is returned when it arrives; a connection failure surfaces when
it happens (never later than the timeout); a reply slower than the timeout,
or a backend that never responds, surfaces as an error exactly at the
timeout. The error payload is the elapsed time. -/
def clientDo : CallOutcome →
    Except Nat ((Nat × List (String × String) × List Char) × Nat)
  | CallOutcome.replied st hs b d =>
    if d < clientTimeout then Except.ok ((st, hs, b), d)
    else Except.error clientTimeout
  | CallOutcome.failedAfter t => Except.error (min t clientTimeout)
  | CallOutcome.neverResponds => Except.error clientTimeout

/-- The spec's ProxyError taxonomy, one constructor per failure branch of
the HTTP-forward path of `proxyHandler`. -/
inductive ProxyError where
  | BadRequest
  | BackendUnreachable
deriving DecidableEq, Repr

/-- What `proxyHandler` writes back to the caller for one forwarded plain
HTTP request, plus the failure classification of the branch taken. -/
structure ForwardResult where
  status : Nat
  headers : List (String × String)
  body : List Char
  elapsed : Nat
  err : Option ProxyError
deriving DecidableEq, Repr

/-- The HTTP-forward path of `proxyHandler`: if `http.NewRequest` fails
(`constructOk = false`), answer `502 Bad Gateway` immediately with no
backend call (ProxyError.BadRequest); if `client.Do` fails or times out,
answer `502 Bad Gateway` (ProxyError.BackendUnreachable); on success, copy
the backend status and headers verbatim and write the body through the URL
rewrite. -/
def proxyForward (constructOk : Bool) (outcome : CallOutcome)
    (chromePattern hostURL : List Char) : ForwardResult :=
  if constructOk then
    match clientDo outcome with
    | Except.error e =>
      { status := 502, headers := [], body := "502 Bad Gateway".toList,
        elapsed := e, err := some ProxyError.BackendUnreachable }
    | Except.ok ((st, hs, b), d) =>
      { status := st, headers := hs,
        body := rewriteBody chromePattern hostURL b,
        elapsed := d, err := none }
  else
    { status := 502, headers := [], body := "502 Bad Gateway".toList,
      elapsed := 0, err := some ProxyError.BadRequest }

/-- C6: a failed outbound-request construction yields ProxyError.BadRequest
(surfaced as a 502 with no time spent on a backend call); an outbound I/O
failure or timeout yields ProxyError.BackendUnreachable; a backend that
never responds yields the bad-gateway answer exactly at the configured
timeout; and every BackendUnreachable answer is a 502 delivered no later
than the configured timeout. -/
theorem forward_error_timeout (outcome : CallOutcome) (cp hostURL : List Char) :
    ((proxyForward false outcome cp hostURL).err = some ProxyError.BadRequest ∧
      (proxyForward false outcome cp hostURL).status = 502 ∧
      (proxyForward false outcome cp hostURL).elapsed = 0) ∧
    (∀ t, (proxyForward true (CallOutcome.failedAfter t) cp hostURL).err =
      some ProxyError.BackendUnreachable) ∧
    ((proxyForward true CallOutcome.neverResponds cp hostURL).err =
        some ProxyError.BackendUnreachable ∧
      (proxyForward true CallOutcome.neverResponds cp hostURL).status = 502 ∧
      (proxyForward true CallOutcome.neverResponds cp hostURL).elapsed =
        clientTimeout) ∧
    ((proxyForward true outcome cp hostURL).err =
        some ProxyError.BackendUnreachable →
      (proxyForward true outcome cp hostURL).status = 502 ∧
      (proxyForward true outcome cp hostURL).elapsed ≤ clientTimeout) := by
  refine ⟨⟨rfl, rfl, rfl⟩, fun t => rfl, ⟨rfl, rfl, rfl⟩, ?_⟩
  intro h
  cases outcome with
  | replied st hs b d =>
    by_cases hd : d < clientTimeout
    · simp [proxyForward, clientDo, hd] at h
    · simp [proxyForward, clientDo, hd]
  | failedAfter t =>
    refine ⟨rfl, ?_⟩
    simp [proxyForward, clientDo]
  | neverResponds => exact ⟨rfl, Nat.le_refl _⟩

/-- Witness for C6: a backend that accepts and never responds; the caller
gets the 502 at the timeout, classified BackendUnreachable. -/
theorem forward_error_timeout_witness :
    (proxyForward true CallOutcome.neverResponds [] []).err =
      some ProxyError.BackendUnreachable ∧
    (proxyForward true CallOutcome.neverResponds [] []).status = 502 ∧
    (proxyForward true CallOutcome.neverResponds [] []).elapsed ≤ clientTimeout := by
  have h := (forward_error_timeout CallOutcome.neverResponds [] []).2.2.2 rfl
  exact ⟨rfl, h.1, h.2⟩

/-- C9: on a successful forward every backend response header — including a
Content-Length entry — is copied unchanged to the caller while the body is
passed through the rewrite; concretely, a backend reply with header
`Content-Length: 19` and 19-byte body `ws://127.0.0.1:9223` is answered
with that same header but a 21-byte body `ws://example.com:7000`. -/
theorem response_headers_copied_verbatim (st : Nat)
    (hs : List (String × String)) (b cp hostURL : List Char) :
    (proxyForward true (CallOutcome.replied st hs b 0) cp hostURL).headers = hs ∧
    (proxyForward true (CallOutcome.replied st hs b 0) cp hostURL).status = st ∧
    (proxyForward true (CallOutcome.replied st hs b 0) cp hostURL).body =
      rewriteBody cp hostURL b ∧
    ((proxyForward true
        (CallOutcome.replied 200 [("Content-Length", "19")]
          "ws://127.0.0.1:9223".toList 0)
        "127.0.0.1:9223".toList "example.com:7000".toList).headers =
      [("Content-Length", "19")] ∧
     (proxyForward true
        (CallOutcome.replied 200 [("Content-Length", "19")]
          "ws://127.0.0.1:9223".toList 0)
        "127.0.0.1:9223".toList "example.com:7000".toList).body =
      "ws://example.com:7000".toList ∧
     "ws://127.0.0.1:9223".toList.length = 19 ∧
     "ws://example.com:7000".toList.length = 21 ∧ (19 : Nat) ≠ 21) := by
  refine ⟨rfl, rfl, rfl, rfl, ?_, by decide, by decide, by decide⟩
  decide

/-- Witness for C7: concrete session — a failed upgrade produces no actions,
a failed dial produces exactly one close notification. -/
theorem ws_relay_failure_paths_witness :
    websocketProxyTrace false true "41000" ⟨"GET", "/json", [], []⟩ = [] ∧
    (websocketProxyTrace true false "41000"
      ⟨"GET", "/json", [], []⟩).countP isCloseMsg = 1 := by
  have h := ws_relay_failure_paths true "41000" ⟨"GET", "/json", [], []⟩
  exact ⟨h.1.1, h.2.2.1⟩

/-- Witness for C8 (amended): a concrete request with a vm query parameter
and Host header; the non-vm pair survives and the websocket dial forwards no
headers. -/
theorem outbound_request_shape_amended_witness :
    (("k", "v") ∈ (buildHTTPOutbound "41000"
        ⟨"GET", "/json/version", [("vm", "sandbox-1"), ("k", "v")],
         [("Host", "example.com"), ("Accept", "anything")]⟩).query ↔
      ("k", "v") ∈ ([("vm", "sandbox-1"), ("k", "v")] :
        List (String × String)) ∧ (("k", "v") : String × String).1 ≠ "vm") ∧
    (buildWsOutbound "41000"
      ⟨"GET", "/json/version", [("vm", "sandbox-1"), ("k", "v")],
       [("Host", "example.com"), ("Accept", "anything")]⟩).headers = [] := by
  have h := outbound_request_shape_amended "41000"
    ⟨"GET", "/json/version", [("vm", "sandbox-1"), ("k", "v")],
     [("Host", "example.com"), ("Accept", "anything")]⟩
  exact ⟨h.2.2.1 ("k", "v"), h.2.2.2.2.2.2⟩

/-- Witness for C9: a concrete successful forward copying a header
verbatim. -/
theorem response_headers_copied_verbatim_witness :
    (proxyForward true
      (CallOutcome.replied 200 [("Content-Type", "application/json")]
        "abc".toList 0) [] []).headers = [("Content-Type", "application/json")] :=
  (response_headers_copied_verbatim 200 [("Content-Type", "application/json")]
    "abc".toList [] []).1
